import Mathlib

/-!
Shallow embedding of the climb-chart application (src/index.js, the revision
with `updateView`, `numberOfVisibleClimbs` and the checkbox change handler).

Numbers are modelled as rationals. `d3.max` over an empty collection returns
`undefined` in JavaScript; this is modelled with `Option`. A d3 linear scale
with an undefined domain maximum produces NaN outputs; applying such a scale
is likewise modelled as `Option`.
-/

namespace ClimbModel

/-- JavaScript `d3.max` on a list of numbers: `undefined` (`none`) on an empty
list, otherwise the maximum. -/
def d3max : List ℚ → Option ℚ
  | [] => none
  | x :: xs =>
    some (match d3max xs with
      | none => x
      | some m => max x m)

/-- JavaScript `d3.max` with an accessor that may itself return `undefined`:
undefined entries are skipped, and the result is `undefined` when no defined
entry exists. -/
def d3maxOpt : List (Option ℚ) → Option ℚ
  | [] => none
  | none :: xs => d3maxOpt xs
  | some x :: xs =>
    some (match d3maxOpt xs with
      | none => x
      | some m => max x m)

/-- A `d3.scaleLinear()` as used by the app: a fixed range (set once from the
layout constants) and a domain `[domainLo, domainMax]`. `domainMax` is `none`
when the code passed `undefined` (the result of `d3.max` over an empty set). -/
structure LinearScale where
  rangeLo : ℚ
  rangeHi : ℚ
  domainLo : ℚ
  domainMax : Option ℚ
deriving DecidableEq, Repr

/-- Applying a linear scale to a number. With an undefined domain maximum the
JS scale yields NaN, modelled as `none`. (For the degenerate domain
`domainLo = domainMax` the rational division convention `x / 0 = 0` is used;
no claim exercises that case.) -/
def LinearScale.apply (s : LinearScale) (x : ℚ) : Option ℚ :=
  s.domainMax.map fun dmax =>
    s.rangeLo + (x - s.domainLo) / (dmax - s.domainLo) * (s.rangeHi - s.rangeLo)

/-- The downloaded JSON document of one climb: parallel `distance` and
`altitude` arrays. -/
structure ClimbData where
  distance : List ℚ
  altitude : List ℚ
deriving DecidableEq, Repr

/-- One projected point, as produced by the app's `lineFunction`
(`d3.line().x(d => distanceScale(d[0])).y(d => altitudeScale(d[1]))`).
A coordinate is `none` when the JS computation yields NaN. -/
abbrev ProjPoint := Option ℚ × Option ℚ

/-- The state of one climb's SVG group: the path geometry (`attr('d', ...)`),
the label placement (`translate(nameX, nameY)`), and the `hidden` class. -/
structure SvgGroup where
  pathD : List ProjPoint
  labelPos : Option ProjPoint
  hidden : Bool
deriving DecidableEq, Repr

/-- A `Climb` object of the source: identity fields, the `visible` flag, the
downloaded `data`, the derived `climbPairs` and the SVG group written by
`makeClimbPath` / `updateClimbPath`. -/
structure Climb where
  id : ℕ
  name : String
  url : String
  visible : Bool
  data : ClimbData
  climbPairs : List (ℚ × Option ℚ)
  svg : SvgGroup
deriving DecidableEq, Repr

/-- The checkbox `<input>` element cloned by `makeCheckbox`: the static
`checked` content attribute (set at creation iff the climb starts visible and
never updated afterwards), the `disabled` attribute (toggled by the change
handler), and the live `checked` property (flipped by user interaction). -/
structure CheckboxInput where
  hasCheckedAttr : Bool
  disabledAttr : Bool
  checkedProp : Bool
deriving DecidableEq, Repr

/-- The mutable application state of `ClimbApp` after `run` has completed:
the climbs, their checkbox inputs (in DOM order, which is climb order), the
running `numberOfVisibleClimbs` counter, and the two scales. -/
structure AppState where
  climbs : List Climb
  inputs : List CheckboxInput
  numberOfVisibleClimbs : Int
  distanceScale : LinearScale
  altitudeScale : LinearScale
deriving DecidableEq, Repr

/-- Auxiliary recursion for `mkClimbPairs`: pairs each remaining distance with
`altitude[i]`, where an out-of-range index yields `undefined` (`none`), exactly
as the JS indexing does. -/
def mkClimbPairsGo (alt : List ℚ) : List ℚ → ℕ → List (ℚ × Option ℚ)
  | [], _ => []
  | x :: xs, i => (x, alt[i]?) :: mkClimbPairsGo alt xs (i + 1)

/-- The source's `climb.data.distance.map((distance, i) => [distance,
climb.data.altitude[i]])`. -/
def mkClimbPairs (d : ClimbData) : List (ℚ × Option ℚ) :=
  mkClimbPairsGo d.altitude d.distance 0

/-- One point of the app's `lineFunction`: project a data-space pair through
the two scales. -/
def projectPoint (dS aS : LinearScale) (p : ℚ × Option ℚ) : ProjPoint :=
  (dS.apply p.1, p.2.bind aS.apply)

/-- The app's `lineFunction` applied to a list of pairs. -/
def lineFunction (dS aS : LinearScale) (pairs : List (ℚ × Option ℚ)) :
    List ProjPoint :=
  pairs.map (projectPoint dS aS)

/-- Source `makeClimbPath` (data side): computes `climb.climbPairs`, draws the
path through `lineFunction`, places the name label at the projection of the
last pair, and sets the `hidden` class from `!climb.visible`. -/
def makeClimbPath (dS aS : LinearScale) (c : Climb) : Climb :=
  let pairs := mkClimbPairs c.data
  { c with
    climbPairs := pairs
    svg :=
      { pathD := lineFunction dS aS pairs
        labelPos := pairs.getLast?.map (projectPoint dS aS)
        hidden := !c.visible } }

/-- Source `updateClimbPath`: re-renders the existing SVG group from the
stored `climbPairs` through the current scales and refreshes the `hidden`
class. `climbPairs` itself is not recomputed. -/
def updateClimbPath (dS aS : LinearScale) (c : Climb) : Climb :=
  { c with
    svg :=
      { pathD := lineFunction dS aS c.climbPairs
        labelPos := c.climbPairs.getLast?.map (projectPoint dS aS)
        hidden := !c.visible } }

/-- The maximum-distance accessor of `prepareChart` / `updateView`:
`d3.max(visibleClimbs, climb => climb.data.distance[climb.data.distance.length - 1])`. -/
def maximumDistanceOf (climbs : List Climb) : Option ℚ :=
  d3maxOpt ((climbs.filter (fun c => c.visible)).map fun c => c.data.distance.getLast?)

/-- The maximum-altitude accessor of `prepareChart` / `updateView`:
`d3.max(visibleClimbs, climb => d3.max(climb.data.altitude))`. -/
def maximumAltitudeOf (climbs : List Climb) : Option ℚ :=
  d3maxOpt ((climbs.filter (fun c => c.visible)).map fun c => d3max c.data.altitude)

/-- The scale pair computed at the start of an `updateView` cycle (lines
295-301 of the source): new domains `[0, maximumDistance]` and
`[0, maximumAltitude]` on the unchanged ranges. -/
def scaleSnapshot (s : AppState) : LinearScale × LinearScale :=
  ({ s.distanceScale with domainLo := 0, domainMax := maximumDistanceOf s.climbs },
   { s.altitudeScale with domainLo := 0, domainMax := maximumAltitudeOf s.climbs })

/-- Source `updateView`: recompute both scale domains from the currently
visible climbs, then redraw every climb (visible or not) through
`updateClimbPath` with the updated scales. -/
def updateView (s : AppState) : AppState :=
  let dS := (scaleSnapshot s).1
  let aS := (scaleSnapshot s).2
  { s with
    distanceScale := dS
    altitudeScale := aS
    climbs := s.climbs.map (updateClimbPath dS aS) }

/-- Set the `visible` flag of the climb at position `i` (the handler's
`climb.visible = input.node().checked`); out-of-range `i` changes nothing. -/
def setVisibleAt : List Climb → ℕ → Bool → List Climb
  | [], _, _ => []
  | c :: cs, 0, b => { c with visible := b } :: cs
  | c :: cs, n + 1, b => c :: setVisibleAt cs n b

/-- Set the `checked` property of the input at position `i` (the browser's
toggle that precedes the change event). -/
def setCheckedPropAt : List CheckboxInput → ℕ → Bool → List CheckboxInput
  | [], _, _ => []
  | x :: xs, 0, b => { x with checkedProp := b } :: xs
  | x :: xs, n + 1, b => x :: setCheckedPropAt xs n b

/-- Model of `d3.select(container).select(sel).attr('disabled', v)`: write the
`disabled` attribute of the FIRST input matching the predicate, in DOM order;
an empty selection is a no-op. -/
def setFirstDisabled (p : CheckboxInput → Bool) (b : Bool) :
    List CheckboxInput → List CheckboxInput
  | [] => []
  | x :: xs =>
    if p x then { x with disabledAttr := b } :: xs
    else x :: setFirstDisabled p b xs

/-- The change-handler closure installed by `makeCheckbox` for the climb at
index `i`, together with the browser's event preconditions: a change event is
delivered only for an existing, non-disabled input, and the browser flips the
`checked` property before firing the event. The handler then sets
`climb.visible` from the property, adjusts `numberOfVisibleClimbs`, disables
the first input whose `checked` ATTRIBUTE is set when the count reaches 1
(re-enabling the first disabled input otherwise), and runs `updateView`. -/
def changeEvent (s : AppState) (i : ℕ) : AppState :=
  match s.inputs[i]? with
  | none => s
  | some inp =>
    if inp.disabledAttr then s
    else
      let newChecked := !inp.checkedProp
      let inputs1 := setCheckedPropAt s.inputs i newChecked
      let climbs1 := setVisibleAt s.climbs i newChecked
      let count1 := s.numberOfVisibleClimbs + (if newChecked then 1 else -1)
      let inputs2 :=
        if count1 = 1 then setFirstDisabled (fun x => x.hasCheckedAttr) true inputs1
        else setFirstDisabled (fun x => x.disabledAttr) false inputs1
      updateView
        { s with
          climbs := climbs1
          inputs := inputs2
          numberOfVisibleClimbs := count1 }

/-- A sequence of user checkbox toggles, processed one at a time (the
environment delivers one event at a time). -/
def applyEvents (s : AppState) : List ℕ → AppState
  | [] => s
  | i :: rest => applyEvents (changeEvent s i) rest

/-- One entry of the static `ClimbApp.CLIMBS` configuration table. -/
structure ClimbConfig where
  id : ℕ
  name : String
  urlPart : String
  visible : Bool
deriving DecidableEq, Repr

/-- The `ClimbApp.CLIMBS` table of the source (ids assigned in registration
order by `Climb.NEXT_INDEX++`). -/
def CLIMBS : List ClimbConfig :=
  [ ⟨0, "Alpe dHuez", "alpe-dhuez", true⟩,
    ⟨1, "ABV via Itanhanga", "alto-da-boa-vista-via-itanhanga", false⟩,
    ⟨2, "ABV via Tijuca", "alto-da-boa-vista-via-tijuca", false⟩,
    ⟨3, "Alto de Letras", "alto-de-letras", false⟩,
    ⟨4, "Col dIzoard", "col-dizoard", true⟩,
    ⟨5, "Col du Galibier", "col-du-galibier", true⟩,
    ⟨6, "Estrada das Canoas", "estrada-das-canoas", true⟩,
    ⟨7, "Mauna Kea", "mauna-kea", false⟩,
    ⟨8, "Mesa do Imperador", "mesa-do-imperador", true⟩,
    ⟨9, "Passo dello Stelvio", "passo-dello-stelvio", false⟩,
    ⟨10, "Serra de Petropolis", "serra-de-petropolis", false⟩,
    ⟨11, "Serra do Rio do Rastro", "serra-do-rio-do-rastro", true⟩,
    ⟨12, "Serra de Teresopolis", "serra-de-teresopolis", false⟩ ]

/-- A `Climb` object as constructed by the `Climb` constructor, before its
data is downloaded and its components are built. -/
def mkClimbObject (cfg : ClimbConfig) (d : ClimbData) : Climb :=
  { id := cfg.id
    name := cfg.name
    url := "climbs/" ++ cfg.urlPart ++ ".json"
    visible := cfg.visible
    data := d
    climbPairs := []
    svg := { pathD := [], labelPos := none, hidden := false } }

/-- Source `prepareChart` (scale side): ranges from the layout constants, and
the initial domains `[0, max]` over the visible climbs. -/
def prepareChart (marginRight width height padding : ℚ) (climbs : List Climb) :
    LinearScale × LinearScale :=
  ({ rangeLo := padding, rangeHi := width - marginRight - padding,
     domainLo := 0, domainMax := maximumDistanceOf climbs },
   { rangeLo := height - padding * 2, rangeHi := padding,
     domainLo := 0, domainMax := maximumAltitudeOf climbs })

/-- The checkbox built by `makeCheckbox`: the `checked` attribute is set iff
the climb starts visible, the element is not disabled, and the `checked`
property initially reflects the attribute. -/
def mkCheckbox (c : Climb) : CheckboxInput :=
  { hasCheckedAttr := c.visible, disabledAttr := false, checkedProp := c.visible }

/-- The state after `run` completes, given the downloaded data for each
configured climb and the layout constants: `prepareChart` fixes the scales,
then `loadClimbComponents` builds each climb's checkbox and path while the
loop counts the visible climbs into `numberOfVisibleClimbs`. -/
def initState (configs : List ClimbConfig) (dataList : List ClimbData)
    (marginRight width height padding : ℚ) : AppState :=
  let climbs0 := (configs.zip dataList).map fun pc => mkClimbObject pc.1 pc.2
  let scales := prepareChart marginRight width height padding climbs0
  let climbs := climbs0.map (makeClimbPath scales.1 scales.2)
  { climbs := climbs
    inputs := climbs0.map mkCheckbox
    numberOfVisibleClimbs := (climbs.countP (fun c => c.visible) : ℕ)
    distanceScale := scales.1
    altitudeScale := scales.2 }

/-- A failed fetch of one climb's JSON document. -/
structure FetchError where
  url : String
deriving DecidableEq, Repr

/-- `Promise.all`: the combined promise resolves with the list of results
when every constituent resolves, and rejects (with the first rejection, in
list order for this deterministic model) as soon as any constituent rejects. -/
def promiseAll {ε α : Type} : List (Except ε α) → Except ε (List α)
  | [] => Except.ok []
  | Except.error e :: _ => Except.error e
  | Except.ok a :: rest => (promiseAll rest).map (fun l => a :: l)

/-- Source `run`, as a function of the per-climb fetch outcomes: the chart
(the whole `AppState`, axes and climb paths included) is built only when the
aggregate `downloadData` promise — a `Promise.all` over all per-climb
fetches — resolves; otherwise `run` propagates the rejection and draws
nothing. -/
def run (fetchResults : List (Except FetchError ClimbData))
    (marginRight width height padding : ℚ) : Except FetchError AppState :=
  (promiseAll fetchResults).map fun dataList =>
    initState CLIMBS dataList marginRight width height padding

/-- The fields of a `Climb` that a visibility toggle must not touch: identity
fields, the downloaded data and the data-space pair sequence. -/
def Climb.staticPart (c : Climb) :
    ℕ × String × String × ClimbData × List (ℚ × Option ℚ) :=
  (c.id, c.name, c.url, c.data, c.climbPairs)

/-- The coupling invariant of the running state: every checkbox's live
`checked` property mirrors its climb's `visible` flag (positionally, which
also forces the two lists to have the same length), and
`numberOfVisibleClimbs` equals the number of visible climbs. -/
def wf (s : AppState) : Prop :=
  (∀ j : ℕ, (s.inputs[j]?).map (fun x => x.checkedProp)
      = (s.climbs[j]?).map (fun c => c.visible)) ∧
  s.numberOfVisibleClimbs = (s.climbs.countP (fun c => c.visible) : ℕ)

/-- A small concrete climb document used for concrete evaluations. -/
def tinyData : ClimbData := ⟨[0, 10], [0, 5]⟩

/-- The concrete state after `run` completes on the source's `CLIMBS` table,
with `tinyData` downloaded for every climb and simple layout constants. -/
def loadedState : AppState :=
  initState CLIMBS (List.replicate 13 tinyData) 0 100 100 0

/-- The state reached from `loadedState` by unchecking climbs 0, 4, 5, 6 and 8:
exactly one climb (id 11) is still visible, but the change handler disabled
checkbox 0 (the first input whose static `checked` attribute is set) instead of
checkbox 11, so checkbox 11 is still enabled. -/
def lastVisibleState : AppState :=
  applyEvents loadedState [0, 4, 5, 6, 8]

/-- The state reached by additionally unchecking climb 11: the visible count
reaches 0 and the scale domains become undefined. -/
def brokenState : AppState :=
  applyEvents loadedState [0, 4, 5, 6, 8, 11]

/-- A concrete state in which no climb is visible, used to exhibit the
behaviour of the scale-domain computation on an empty visible set. -/
def cexState : AppState :=
  { climbs := [mkClimbObject ⟨0, "A", "a", false⟩ tinyData]
    inputs := [mkCheckbox (mkClimbObject ⟨0, "A", "a", false⟩ tinyData)]
    numberOfVisibleClimbs := 0
    distanceScale := { rangeLo := 0, rangeHi := 100, domainLo := 0, domainMax := some 10 }
    altitudeScale := { rangeLo := 100, rangeHi := 0, domainLo := 0, domainMax := some 5 } }

/-- A concrete two-climb state (one visible, one hidden) used to instantiate
the universally quantified theorems. -/
def wState : AppState :=
  { climbs :=
      [ mkClimbObject ⟨0, "A", "a", true⟩ ⟨[0, 1000], [0, 100]⟩,
        mkClimbObject ⟨1, "B", "b", false⟩ ⟨[0, 2000], [0, 50]⟩ ]
    inputs :=
      [ mkCheckbox (mkClimbObject ⟨0, "A", "a", true⟩ ⟨[0, 1000], [0, 100]⟩),
        mkCheckbox (mkClimbObject ⟨1, "B", "b", false⟩ ⟨[0, 2000], [0, 50]⟩) ]
    numberOfVisibleClimbs := 1
    distanceScale := { rangeLo := 0, rangeHi := 100, domainLo := 0, domainMax := some 1000 }
    altitudeScale := { rangeLo := 100, rangeHi := 0, domainLo := 0, domainMax := some 100 } }

/-- The first climb of `wState`. -/
def wClimbA : Climb := mkClimbObject ⟨0, "A", "a", true⟩ ⟨[0, 1000], [0, 100]⟩

/-- A concrete fetch outcome list in which the second climb's fetch failed. -/
def failedResults : List (Except FetchError ClimbData) :=
  [Except.ok tinyData, Except.error ⟨"climbs/err.json"⟩, Except.ok tinyData]

@[simp] theorem visible_updateClimbPath (dS aS : LinearScale) (c : Climb) :
    (updateClimbPath dS aS c).visible = c.visible := rfl

@[simp] theorem staticPart_updateClimbPath (dS aS : LinearScale) (c : Climb) :
    (updateClimbPath dS aS c).staticPart = c.staticPart := rfl

@[simp] theorem visible_makeClimbPath (dS aS : LinearScale) (c : Climb) :
    (makeClimbPath dS aS c).visible = c.visible := rfl

@[simp] theorem checkedProp_mkCheckbox (c : Climb) :
    (mkCheckbox c).checkedProp = c.visible := rfl

theorem updateView_inputs (s : AppState) : (updateView s).inputs = s.inputs := rfl

theorem updateView_count (s : AppState) :
    (updateView s).numberOfVisibleClimbs = s.numberOfVisibleClimbs := rfl

theorem updateView_climbs_getElem (s : AppState) (j : ℕ) :
    (updateView s).climbs[j]?
      = (s.climbs[j]?).map (updateClimbPath (scaleSnapshot s).1 (scaleSnapshot s).2) := by
  simp [updateView]

theorem updateView_countP (s : AppState) :
    (updateView s).climbs.countP (fun c => c.visible)
      = s.climbs.countP (fun c => c.visible) := by
  simp [updateView, List.countP_map]
  rfl

theorem setVisibleAt_getElem? (b : Bool) :
    ∀ (l : List Climb) (i j : ℕ),
      (setVisibleAt l i b)[j]?
        = if j = i then (l[j]?).map (fun c => { c with visible := b }) else l[j]?
  | [], i, j => by simp [setVisibleAt]
  | c :: cs, 0, 0 => by simp [setVisibleAt]
  | c :: cs, 0, j + 1 => by simp [setVisibleAt]
  | c :: cs, i + 1, 0 => by simp [setVisibleAt]
  | c :: cs, i + 1, j + 1 => by
      simp [setVisibleAt, setVisibleAt_getElem? b cs i j]

theorem setCheckedPropAt_getElem? (b : Bool) :
    ∀ (l : List CheckboxInput) (i j : ℕ),
      (setCheckedPropAt l i b)[j]?
        = if j = i then (l[j]?).map (fun x => { x with checkedProp := b }) else l[j]?
  | [], i, j => by simp [setCheckedPropAt]
  | x :: xs, 0, 0 => by simp [setCheckedPropAt]
  | x :: xs, 0, j + 1 => by simp [setCheckedPropAt]
  | x :: xs, i + 1, 0 => by simp [setCheckedPropAt]
  | x :: xs, i + 1, j + 1 => by
      simp [setCheckedPropAt, setCheckedPropAt_getElem? b xs i j]

theorem checkedProp_setFirstDisabled (p : CheckboxInput → Bool) (b : Bool) :
    ∀ (l : List CheckboxInput) (j : ℕ),
      ((setFirstDisabled p b l)[j]?).map (fun x => x.checkedProp)
        = (l[j]?).map (fun x => x.checkedProp)
  | [], j => rfl
  | x :: xs, j => by
      by_cases h : p x
      · cases j <;> simp [setFirstDisabled, h]
      · cases j <;> simp [setFirstDisabled, h, checkedProp_setFirstDisabled p b xs]

theorem length_mkClimbPairsGo (alt : List ℚ) :
    ∀ (l : List ℚ) (i : ℕ), (mkClimbPairsGo alt l i).length = l.length
  | [], _ => rfl
  | x :: xs, i => by simp [mkClimbPairsGo, length_mkClimbPairsGo alt xs (i + 1)]

theorem length_mkClimbPairs (d : ClimbData) :
    (mkClimbPairs d).length = d.distance.length :=
  length_mkClimbPairsGo d.altitude d.distance 0

theorem getLast?_mkClimbPairsGo (alt : List ℚ) :
    ∀ (l : List ℚ) (i : ℕ) (x : ℚ), l.getLast? = some x →
      (mkClimbPairsGo alt l i).getLast? = some (x, alt[i + (l.length - 1)]?)
  | [], _, _, h => by simp at h
  | [a], i, x, h => by
      obtain rfl : a = x := by simpa using h
      simp [mkClimbPairsGo]
  | a :: b :: t, i, x, h => by
      rw [List.getLast?_cons_cons] at h
      have ih := getLast?_mkClimbPairsGo alt (b :: t) (i + 1) x h
      have harith : (i + 1) + ((b :: t).length - 1) = i + ((a :: b :: t).length - 1) := by
        simp
        omega
      rw [harith] at ih
      rw [mkClimbPairsGo, mkClimbPairsGo, List.getLast?_cons_cons, ← mkClimbPairsGo]
      exact ih

theorem getLast?_mkClimbPairs (d : ClimbData)
    (hlen : d.altitude.length = d.distance.length)
    (x : ℚ) (hx : d.distance.getLast? = some x) :
    ∃ y, d.altitude.getLast? = some y ∧ (mkClimbPairs d).getLast? = some (x, some y) := by
  have hne : d.distance ≠ [] := by
    intro h
    rw [h] at hx
    simp at hx
  have halterne : d.altitude ≠ [] := by
    intro h
    have : d.distance.length = 0 := by
      rw [← hlen, h]
      rfl
    exact hne (List.eq_nil_of_length_eq_zero this)
  obtain ⟨y, hy⟩ := Option.isSome_iff_exists.mp (List.getLast?_isSome.mpr halterne)
  refine ⟨y, hy, ?_⟩
  have := getLast?_mkClimbPairsGo d.altitude d.distance 0 x hx
  rw [mkClimbPairs, this]
  have : d.altitude[0 + (d.distance.length - 1)]? = some y := by
    rw [Nat.zero_add, ← hlen, ← List.getLast?_eq_getElem?, hy]
  rw [this]

theorem d3max_spec :
    ∀ l : List ℚ, l = [] ∧ d3max l = none ∨
      ∃ m, d3max l = some m ∧ m ∈ l ∧ ∀ x ∈ l, x ≤ m
  | [] => Or.inl ⟨rfl, rfl⟩
  | a :: t => by
      rcases d3max_spec t with ⟨ht, hnone⟩ | ⟨m, hm, hmem, hub⟩
      · subst ht
        exact Or.inr ⟨a, rfl, by simp, by simp⟩
      · refine Or.inr ⟨max a m, by simp [d3max, hm], ?_, ?_⟩
        · rcases max_choice a m with h | h <;> simp [h, hmem]
        · intro x hx
          rcases List.mem_cons.mp hx with rfl | hx
          · exact le_max_left _ _
          · exact le_trans (hub x hx) (le_max_right _ _)

theorem d3maxOpt_spec :
    ∀ l : List (Option ℚ),
      (d3maxOpt l = none ∧ ∀ x : ℚ, some x ∉ l) ∨
      ∃ m, d3maxOpt l = some m ∧ some m ∈ l ∧ ∀ x : ℚ, some x ∈ l → x ≤ m
  | [] => Or.inl ⟨rfl, by simp⟩
  | none :: t => by
      rcases d3maxOpt_spec t with ⟨h1, h2⟩ | ⟨m, hm, hmem, hub⟩
      · refine Or.inl ⟨by simpa [d3maxOpt] using h1, ?_⟩
        intro x hx
        rcases List.mem_cons.mp hx with h | h
        · exact Option.noConfusion h
        · exact h2 x h
      · refine Or.inr ⟨m, by simpa [d3maxOpt] using hm, List.mem_cons_of_mem _ hmem, ?_⟩
        intro x hx
        rcases List.mem_cons.mp hx with h | h
        · exact Option.noConfusion h
        · exact hub x h
  | some a :: t => by
      rcases d3maxOpt_spec t with ⟨h1, h2⟩ | ⟨m, hm, hmem, hub⟩
      · refine Or.inr ⟨a, by simp [d3maxOpt, h1], by simp, ?_⟩
        intro x hx
        rcases List.mem_cons.mp hx with h | h
        · obtain rfl : x = a := by simpa using h
          exact le_refl _
        · exact absurd h (h2 x)
      · refine Or.inr ⟨max a m, by simp [d3maxOpt, hm], ?_, ?_⟩
        · rcases max_choice a m with h | h
          · rw [h]
            simp
          · rw [h]
            exact List.mem_cons_of_mem _ hmem
        · intro x hx
          rcases List.mem_cons.mp hx with h | h
          · obtain rfl : x = a := by simpa using h
            exact le_max_left _ _
          · exact le_trans (hub x h) (le_max_right _ _)

theorem countP_setVisibleAt :
    ∀ (l : List Climb) (i : ℕ) (c : Climb), l[i]? = some c → ∀ b : Bool,
      ((setVisibleAt l i b).countP (fun x => x.visible) : Int)
        = (l.countP (fun x => x.visible) : Int)
          - (if c.visible then 1 else 0) + (if b then 1 else 0)
  | [], i, c, h, b => by simp at h
  | a :: t, 0, c, h, b => by
      obtain rfl : a = c := by simpa using h
      cases hc : a.visible <;> cases b <;>
        simp [setVisibleAt, List.countP_cons, hc]
  | a :: t, i + 1, c, h, b => by
      have h' : t[i]? = some c := by simpa using h
      have ih := countP_setVisibleAt t i c h' b
      cases ha : a.visible <;> cases hc : c.visible <;> cases b <;>
        simp [setVisibleAt, List.countP_cons, ha, hc] at ih ⊢ <;> omega

theorem promiseAll_error {ε α : Type} (e : ε) :
    ∀ l : List (Except ε α), Except.error e ∈ l →
      ∃ e2, promiseAll l = Except.error e2
  | [], h => by simp at h
  | Except.error e1 :: _, _ => ⟨e1, rfl⟩
  | Except.ok a :: t, h => by
      have h' : Except.error e ∈ t := by
        rcases List.mem_cons.mp h with h | h
        · exact Except.noConfusion h
        · exact h
      obtain ⟨e2, he2⟩ := promiseAll_error e t h'
      refine ⟨e2, ?_⟩
      show (promiseAll t).map (fun l => a :: l) = Except.error e2
      rw [he2]
      rfl

theorem wf_updateView (s : AppState) (h : wf s) : wf (updateView s) := by
  obtain ⟨h1, h2⟩ := h
  refine ⟨?_, ?_⟩
  · intro j
    rw [updateView_inputs, updateView_climbs_getElem, Option.map_map]
    exact h1 j
  · rw [updateView_count, updateView_countP]
    exact h2

theorem wf_initState (configs : List ClimbConfig) (dataList : List ClimbData)
    (mR w h p : ℚ) : wf (initState configs dataList mR w h p) := by
  refine ⟨?_, rfl⟩
  intro j
  simp only [initState, List.getElem?_map, Option.map_map]
  cases (configs.zip dataList)[j]? <;> rfl

theorem wf_changeCore (s : AppState) (i : ℕ) (inp : CheckboxInput)
    (hinp : s.inputs[i]? = some inp) (hwf : wf s) (inputs2 : List CheckboxInput)
    (hin2 : ∀ j : ℕ, (inputs2[j]?).map (fun x => x.checkedProp)
        = ((setCheckedPropAt s.inputs i (!inp.checkedProp))[j]?).map
            (fun x => x.checkedProp)) :
    wf { s with
          climbs := setVisibleAt s.climbs i (!inp.checkedProp)
          inputs := inputs2
          numberOfVisibleClimbs :=
            s.numberOfVisibleClimbs + (if (!inp.checkedProp) then 1 else -1) } := by
  obtain ⟨hcp, hcount⟩ := hwf
  have hmi := hcp i
  rw [hinp] at hmi
  obtain ⟨c, hc, hcv⟩ := Option.map_eq_some'.mp hmi.symm
  refine ⟨?_, ?_⟩
  · intro j
    show (inputs2[j]?).map _ = ((setVisibleAt s.climbs i (!inp.checkedProp))[j]?).map _
    rw [hin2 j, setCheckedPropAt_getElem?, setVisibleAt_getElem?]
    by_cases hj : j = i
    · subst hj
      rw [if_pos rfl, if_pos rfl, hinp, hc]
      rfl
    · rw [if_neg hj, if_neg hj]
      exact hcp j
  · show s.numberOfVisibleClimbs + _
      = ((setVisibleAt s.climbs i (!inp.checkedProp)).countP (fun x => x.visible) : ℕ)
    have hcv2 : c.visible = inp.checkedProp := hcv
    have hset := countP_setVisibleAt s.climbs i c hc (!inp.checkedProp)
    rw [hcount]
    cases hp : inp.checkedProp <;>
      rw [hp] at hcv2 hset <;> simp [hcv2] at hset ⊢ <;> omega

theorem wf_changeEvent (s : AppState) (i : ℕ) (h : wf s) : wf (changeEvent s i) := by
  rw [changeEvent]
  cases hinp : s.inputs[i]? with
  | none => exact h
  | some inp =>
    show wf (if inp.disabledAttr = true then s
      else updateView { s with
        climbs := setVisibleAt s.climbs i (!inp.checkedProp)
        inputs :=
          if (s.numberOfVisibleClimbs + if (!inp.checkedProp) = true then 1 else -1) = 1
          then setFirstDisabled (fun x => x.hasCheckedAttr) true
            (setCheckedPropAt s.inputs i (!inp.checkedProp))
          else setFirstDisabled (fun x => x.disabledAttr) false
            (setCheckedPropAt s.inputs i (!inp.checkedProp))
        numberOfVisibleClimbs :=
          s.numberOfVisibleClimbs + if (!inp.checkedProp) = true then 1 else -1 })
    by_cases hdis : inp.disabledAttr = true
    · rw [if_pos hdis]
      exact h
    · rw [if_neg hdis]
      refine wf_updateView _ (wf_changeCore s i inp hinp h _ ?_)
      intro j
      by_cases hcnt :
          (s.numberOfVisibleClimbs + if (!inp.checkedProp) = true then 1 else -1) = 1
      · rw [if_pos hcnt]
        exact checkedProp_setFirstDisabled _ _ _ j
      · rw [if_neg hcnt]
        exact checkedProp_setFirstDisabled _ _ _ j

theorem wf_applyEvents (s : AppState) (h : wf s) :
    ∀ events : List ℕ, wf (applyEvents s events)
  | [] => h
  | i :: rest => wf_applyEvents (changeEvent s i) (wf_changeEvent s i h) rest

theorem changeEvent_none (s : AppState) (i : ℕ) (h : s.inputs[i]? = none) :
    changeEvent s i = s := by
  rw [changeEvent, h]

theorem changeEvent_eq_of_inp (s : AppState) (i : ℕ) (inp : CheckboxInput)
    (hinp : s.inputs[i]? = some inp) :
    changeEvent s i = if inp.disabledAttr = true then s
      else updateView { s with
        climbs := setVisibleAt s.climbs i (!inp.checkedProp)
        inputs :=
          if (s.numberOfVisibleClimbs + if (!inp.checkedProp) = true then 1 else -1) = 1
          then setFirstDisabled (fun x => x.hasCheckedAttr) true
            (setCheckedPropAt s.inputs i (!inp.checkedProp))
          else setFirstDisabled (fun x => x.disabledAttr) false
            (setCheckedPropAt s.inputs i (!inp.checkedProp))
        numberOfVisibleClimbs :=
          s.numberOfVisibleClimbs + if (!inp.checkedProp) = true then 1 else -1 } := by
  rw [changeEvent, hinp]

/-- C9: the running visible-count is authoritative. After initialization and
after every sequence of checkbox toggle events, `numberOfVisibleClimbs` equals
the number of climbs whose `visible` flag is true. -/
theorem numberOfVisibleClimbs_authoritative (configs : List ClimbConfig)
    (dataList : List ClimbData) (mR w h p : ℚ) (events : List ℕ) :
    (applyEvents (initState configs dataList mR w h p) events).numberOfVisibleClimbs
      = ((applyEvents (initState configs dataList mR w h p) events).climbs.countP
          (fun c => c.visible) : ℕ) :=
  (wf_applyEvents _ (wf_initState configs dataList mR w h p) events).2

/-- C4: on every `updateView` cycle, every record — visible or not — is
re-rendered by `updateClimbPath`: its path geometry afterwards equals its
stored data-space pairs mapped through the just-recomputed scales. -/
theorem updateView_reprojects_all (s : AppState) (j : ℕ) (c : Climb)
    (h : s.climbs[j]? = some c) :
    ((updateView s).climbs[j]?).map (fun c2 => c2.svg.pathD)
      = some (lineFunction (updateView s).distanceScale (updateView s).altitudeScale
          c.climbPairs) := by
  rw [updateView_climbs_getElem, h]
  rfl

/-- Witness for C4 at a concrete state and record. -/
theorem updateView_reprojects_all_witness :
    ((updateView wState).climbs[0]?).map (fun c2 => c2.svg.pathD)
      = some (lineFunction (updateView wState).distanceScale
          (updateView wState).altitudeScale wClimbA.climbPairs) :=
  updateView_reprojects_all wState 0 wClimbA (by decide)

/-- C5: within one `updateView` cycle both scale domains are updated first,
and every record is then re-rendered against that single scale snapshot: the
post-state scales equal the snapshot computed at the start of the cycle, and
every record's new rendering is `updateClimbPath` applied with exactly that
snapshot. -/
theorem updateView_single_snapshot (s : AppState) (j : ℕ) (c : Climb)
    (h : s.climbs[j]? = some c) :
    (updateView s).distanceScale = (scaleSnapshot s).1 ∧
    (updateView s).altitudeScale = (scaleSnapshot s).2 ∧
    (updateView s).climbs[j]?
      = some (updateClimbPath (scaleSnapshot s).1 (scaleSnapshot s).2 c) := by
  refine ⟨rfl, rfl, ?_⟩
  rw [updateView_climbs_getElem, h]
  rfl

/-- Witness for C5 at a concrete state and record. -/
theorem updateView_single_snapshot_witness :
    (updateView wState).distanceScale = (scaleSnapshot wState).1 ∧
    (updateView wState).altitudeScale = (scaleSnapshot wState).2 ∧
    (updateView wState).climbs[0]?
      = some (updateClimbPath (scaleSnapshot wState).1 (scaleSnapshot wState).2 wClimbA) :=
  updateView_single_snapshot wState 0 wClimbA (by decide)

/-- C7 counterexample: at a concrete state with zero visible records the
scale-domain computation does not fail — it silently produces a scale state
whose domain maxima are undefined. -/
theorem updateView_empty_visible_cex :
    cexState.climbs.countP (fun c => c.visible) = 0 ∧
    (updateView cexState).distanceScale.domainMax = none ∧
    (updateView cexState).altitudeScale.domainMax = none := by
  refine ⟨rfl, rfl, rfl⟩

/-- C7 (amended): called with zero visible records, the scale-domain
computation does not fail with any error; it silently sets both domain maxima
to `undefined` (`d3.max` of an empty set), yielding a broken scale state. -/
theorem updateView_empty_visible_silent (s : AppState)
    (h : s.climbs.filter (fun c => c.visible) = []) :
    (updateView s).distanceScale.domainMax = none ∧
    (updateView s).altitudeScale.domainMax = none := by
  constructor <;>
    simp [updateView, scaleSnapshot, maximumDistanceOf, maximumAltitudeOf, h, d3maxOpt]

/-- Witness for the amended C7 at a concrete all-hidden state. -/
theorem updateView_empty_visible_silent_witness :
    (updateView cexState).distanceScale.domainMax = none ∧
    (updateView cexState).altitudeScale.domainMax = none :=
  updateView_empty_visible_silent cexState (by decide)

/-- C6: if any single climb's fetch fails, the aggregate load (`Promise.all`
over all per-climb fetches) fails as a whole, so `run` never produces an
application state: no chart, axes or climb paths are ever built. -/
theorem run_fails_on_any_fetch_failure (results : List (Except FetchError ClimbData))
    (mR w h p : ℚ) (e : FetchError) (he : Except.error e ∈ results) :
    ∃ e2, run results mR w h p = Except.error e2 ∧
      ∀ st : AppState, run results mR w h p ≠ Except.ok st := by
  obtain ⟨e2, h2⟩ := promiseAll_error e results he
  have hrun : run results mR w h p = Except.error e2 := by
    show (promiseAll results).map _ = _
    rw [h2]
    rfl
  exact ⟨e2, hrun, fun st hst => by rw [hrun] at hst; exact Except.noConfusion hst⟩

/-- Witness for C6 at a concrete fetch-outcome list with one failure. -/
theorem run_fails_on_any_fetch_failure_witness :
    ∃ e2, run failedResults 0 100 100 0 = Except.error e2 ∧
      ∀ st : AppState, run failedResults 0 100 100 0 ≠ Except.ok st :=
  run_fails_on_any_fetch_failure failedResults 0 100 100 0 ⟨"climbs/err.json"⟩ (by simp [failedResults])

/-- C3: for every non-empty visible set, the scale-domain computation (shared
by `prepareChart` at initialization and `updateView` on each toggle) sets the
distance domain to exactly `[0, max over visible records of the last sample's
distance]` and the altitude domain to exactly `[0, max over visible records of
the maximum altitude]`; both domains start at 0. -/
theorem scale_domains_exact (s : AppState)
    (hV : s.climbs.filter (fun c => c.visible) ≠ [])
    (hd : ∀ c ∈ s.climbs.filter (fun c => c.visible), c.data.distance ≠ [])
    (ha : ∀ c ∈ s.climbs.filter (fun c => c.visible), c.data.altitude ≠ []) :
    ∃ mD mA : ℚ,
      (updateView s).distanceScale.domainLo = 0 ∧
      (updateView s).distanceScale.domainMax = some mD ∧
      (updateView s).altitudeScale.domainLo = 0 ∧
      (updateView s).altitudeScale.domainMax = some mA ∧
      (∀ mR w h p : ℚ,
        (prepareChart mR w h p s.climbs).1.domainLo = 0 ∧
        (prepareChart mR w h p s.climbs).1.domainMax = some mD ∧
        (prepareChart mR w h p s.climbs).2.domainLo = 0 ∧
        (prepareChart mR w h p s.climbs).2.domainMax = some mA) ∧
      (∃ c ∈ s.climbs.filter (fun c => c.visible),
        c.data.distance.getLast? = some mD) ∧
      (∀ c ∈ s.climbs.filter (fun c => c.visible),
        ∀ x : ℚ, c.data.distance.getLast? = some x → x ≤ mD) ∧
      (∃ c ∈ s.climbs.filter (fun c => c.visible), mA ∈ c.data.altitude) ∧
      (∀ c ∈ s.climbs.filter (fun c => c.visible), ∀ x ∈ c.data.altitude, x ≤ mA) := by
  obtain ⟨c0, hc0⟩ := List.exists_mem_of_ne_nil _ hV
  obtain ⟨x0, hx0⟩ := Option.isSome_iff_exists.mp (List.getLast?_isSome.mpr (hd c0 hc0))
  rcases d3maxOpt_spec ((s.climbs.filter (fun c => c.visible)).map
      fun c => c.data.distance.getLast?) with ⟨_, hno⟩ | ⟨mD, hmD, hmDmem, hmDub⟩
  · exfalso
    refine hno x0 ?_
    have hmem : c0.data.distance.getLast? ∈ (s.climbs.filter (fun c => c.visible)).map
        (fun c => c.data.distance.getLast?) :=
      List.mem_map_of_mem (fun c => c.data.distance.getLast?) hc0
    rwa [hx0] at hmem
  · have haD : ∀ c ∈ s.climbs.filter (fun c => c.visible), d3max c.data.altitude ≠ none := by
      intro c hc hcn
      rcases d3max_spec c.data.altitude with ⟨hnil, _⟩ | ⟨m, hm, _, _⟩
      · exact ha c hc hnil
      · rw [hm] at hcn
        exact Option.noConfusion hcn
    rcases d3maxOpt_spec ((s.climbs.filter (fun c => c.visible)).map
        fun c => d3max c.data.altitude) with ⟨_, hno⟩ | ⟨mA, hmA, hmAmem, hmAub⟩
    · exfalso
      rcases d3max_spec c0.data.altitude with ⟨hnil, _⟩ | ⟨m0, hm0, _, _⟩
      · exact ha c0 hc0 hnil
      · exact hno m0 (hm0 ▸ List.mem_map_of_mem (fun c => d3max c.data.altitude) hc0)
    · refine ⟨mD, mA, rfl, hmD, rfl, hmA, fun mR w h p => ⟨rfl, hmD, rfl, hmA⟩, ?_, ?_, ?_, ?_⟩
      · obtain ⟨c, hc, hce⟩ := List.mem_map.mp hmDmem
        exact ⟨c, hc, hce⟩
      · intro c hc x hx
        exact hmDub x (hx ▸ List.mem_map_of_mem (fun c => c.data.distance.getLast?) hc)
      · obtain ⟨c, hc, hce⟩ := List.mem_map.mp hmAmem
        rcases d3max_spec c.data.altitude with ⟨hnil, _⟩ | ⟨m, hm, hmmem, _⟩
        · exact absurd hnil (ha c hc)
        · rw [hm] at hce
          obtain rfl : m = mA := Option.some_injective _ hce
          exact ⟨c, hc, hmmem⟩
      · intro c hc x hx
        rcases d3max_spec c.data.altitude with ⟨hnil, _⟩ | ⟨m, hm, _, hub⟩
        · exact absurd hnil (ha c hc)
        · exact le_trans (hub x hx)
            (hmAub m (hm ▸ List.mem_map_of_mem (fun c => d3max c.data.altitude) hc))

/-- Witness for C3 at a concrete two-climb state with one visible record. -/
theorem scale_domains_exact_witness :
    ∃ mD mA : ℚ,
      (updateView wState).distanceScale.domainLo = 0 ∧
      (updateView wState).distanceScale.domainMax = some mD ∧
      (updateView wState).altitudeScale.domainLo = 0 ∧
      (updateView wState).altitudeScale.domainMax = some mA ∧
      (∀ mR w h p : ℚ,
        (prepareChart mR w h p wState.climbs).1.domainLo = 0 ∧
        (prepareChart mR w h p wState.climbs).1.domainMax = some mD ∧
        (prepareChart mR w h p wState.climbs).2.domainLo = 0 ∧
        (prepareChart mR w h p wState.climbs).2.domainMax = some mA) ∧
      (∃ c ∈ wState.climbs.filter (fun c => c.visible),
        c.data.distance.getLast? = some mD) ∧
      (∀ c ∈ wState.climbs.filter (fun c => c.visible),
        ∀ x : ℚ, c.data.distance.getLast? = some x → x ≤ mD) ∧
      (∃ c ∈ wState.climbs.filter (fun c => c.visible), mA ∈ c.data.altitude) ∧
      (∀ c ∈ wState.climbs.filter (fun c => c.visible), ∀ x ∈ c.data.altitude, x ≤ mA) :=
  scale_domains_exact wState (by decide) (by decide) (by decide)

/-- C8: for a record with parallel sample arrays and a non-empty sample
sequence, the projected output of `makeClimbPath` has exactly one point per
sample, and its last point is the projection of the last sample — the same
point at which the climb's name label is placed. -/
theorem makeClimbPath_length_last (dS aS : LinearScale) (c : Climb)
    (hlen : c.data.altitude.length = c.data.distance.length)
    (x : ℚ) (hx : c.data.distance.getLast? = some x) :
    ((makeClimbPath dS aS c).svg.pathD).length = c.data.distance.length ∧
    ∃ y, c.data.altitude.getLast? = some y ∧
      ((makeClimbPath dS aS c).svg.pathD).getLast?
        = some (projectPoint dS aS (x, some y)) ∧
      (makeClimbPath dS aS c).svg.labelPos = some (projectPoint dS aS (x, some y)) := by
  obtain ⟨y, hy, hlast⟩ := getLast?_mkClimbPairs c.data hlen x hx
  constructor
  · show (lineFunction dS aS (mkClimbPairs c.data)).length = _
    rw [lineFunction, List.length_map, length_mkClimbPairs]
  · refine ⟨y, hy, ?_, ?_⟩
    · show (lineFunction dS aS (mkClimbPairs c.data)).getLast? = _
      rw [lineFunction, List.getLast?_map, hlast]
      rfl
    · show ((mkClimbPairs c.data).getLast?).map (projectPoint dS aS) = _
      rw [hlast]
      rfl

/-- Witness for C8 at a concrete record and scales. -/
theorem makeClimbPath_length_last_witness :
    ((makeClimbPath ⟨0, 100, 0, some 1000⟩ ⟨100, 0, 0, some 100⟩ wClimbA).svg.pathD).length
      = wClimbA.data.distance.length ∧
    ∃ y, wClimbA.data.altitude.getLast? = some y ∧
      ((makeClimbPath ⟨0, 100, 0, some 1000⟩ ⟨100, 0, 0, some 100⟩ wClimbA).svg.pathD).getLast?
        = some (projectPoint ⟨0, 100, 0, some 1000⟩ ⟨100, 0, 0, some 100⟩ (1000, some y)) ∧
      (makeClimbPath ⟨0, 100, 0, some 1000⟩ ⟨100, 0, 0, some 100⟩ wClimbA).svg.labelPos
        = some (projectPoint ⟨0, 100, 0, some 1000⟩ ⟨100, 0, 0, some 100⟩ (1000, some y)) :=
  makeClimbPath_length_last ⟨0, 100, 0, some 1000⟩ ⟨100, 0, 0, some 100⟩ wClimbA
    (by decide) 1000 (by decide)

/-- C10: a toggle event for the climb at index `i` mutates at most that
climb's `visible` flag — every other climb's flag is unchanged, and every
climb's identity fields, downloaded data and data-space pair sequence
(`Climb.staticPart`) are unchanged by the event and its update cycle. -/
theorem changeEvent_frame (s : AppState) (i j : ℕ) (hne : j ≠ i) :
    ((changeEvent s i).climbs[j]?).map (fun c => c.visible)
      = (s.climbs[j]?).map (fun c => c.visible) ∧
    ∀ k : ℕ, ((changeEvent s i).climbs[k]?).map Climb.staticPart
      = (s.climbs[k]?).map Climb.staticPart := by
  cases hinp : s.inputs[i]? with
  | none =>
    rw [changeEvent_none s i hinp]
    exact ⟨rfl, fun _ => rfl⟩
  | some inp =>
    rw [changeEvent_eq_of_inp s i inp hinp]
    by_cases hdis : inp.disabledAttr = true
    · rw [if_pos hdis]
      exact ⟨rfl, fun _ => rfl⟩
    · rw [if_neg hdis]
      constructor
      · rw [updateView_climbs_getElem, Option.map_map]
        show ((setVisibleAt s.climbs i (!inp.checkedProp))[j]?).map _ = _
        rw [setVisibleAt_getElem?, if_neg hne]
        cases s.climbs[j]? <;> rfl
      · intro k
        rw [updateView_climbs_getElem, Option.map_map]
        show ((setVisibleAt s.climbs i (!inp.checkedProp))[k]?).map _ = _
        rw [setVisibleAt_getElem?]
        by_cases hk : k = i
        · rw [if_pos hk, Option.map_map]
          cases s.climbs[k]? <;> rfl
        · rw [if_neg hk]
          cases s.climbs[k]? <;> rfl

/-- Witness for C10 at a concrete state with `i = 0`, `j = 1`. -/
theorem changeEvent_frame_witness :
    ((changeEvent wState 0).climbs[1]?).map (fun c => c.visible)
      = (wState.climbs[1]?).map (fun c => c.visible) ∧
    ∀ k : ℕ, ((changeEvent wState 0).climbs[k]?).map Climb.staticPart
      = (wState.climbs[k]?).map Climb.staticPart :=
  changeEvent_frame wState 0 1 (by decide)

/-- C1 (code bug): in the reachable state `lastVisibleState` exactly one
climb (id 11) is visible, yet its checkbox is still enabled (the handler
disabled checkbox 0 instead, because the `input[checked]` selector matches the
static `checked` attribute rather than the live property). The toggle request
that hides the last visible climb is therefore NOT rejected: it flips the
flag, drops the count to 0 and destroys the scale domains. -/
theorem lastVisible_toggle_not_rejected :
    lastVisibleState.climbs.countP (fun c => c.visible) = 1 ∧
    (lastVisibleState.climbs[11]?).map (fun c => c.visible) = some true ∧
    lastVisibleState.distanceScale.domainMax = some 10 ∧
    ((changeEvent lastVisibleState 11).climbs[11]?).map (fun c => c.visible)
      = some false ∧
    (changeEvent lastVisibleState 11).numberOfVisibleClimbs = 0 ∧
    (changeEvent lastVisibleState 11).distanceScale.domainMax = none := by
  decide

/-- C2 (code bug): the toggle sequence 0, 4, 5, 6, 8, 11 from the initial
state (6 visible climbs) drives the visible count to 0, violating the "at
least one record visible" invariant the code's own comment promises. -/
theorem visible_count_reaches_zero :
    loadedState.climbs.countP (fun c => c.visible) = 6 ∧
    brokenState.climbs.countP (fun c => c.visible) = 0 ∧
    brokenState.numberOfVisibleClimbs = 0 := by
  decide

end ClimbModel
